import Mathlib

/-!
Verification development for `src/rip-audio-cd.py` of cpressland/rpi-cd-ripper.

The script is a straight-line orchestrator around external effects (device
ioctl, the `abcde` ripper, the filesystem, Telegram, systemd, `eject`).  We
embed it shallowly: every external outcome is an input field of an `Env`
record, and `main : Env → RunResult` computes the observable effects of one
run (exit outcome, Telegram calls, moves, cleanup, eject count).  Pure
helpers (`get_drive_status`, `send_telegram`, `parse_abcde_log`) are
translated directly; the two `re.search` patterns are embedded by a small
backtracking regex engine whose alternative order matches Python's
(leftmost match, lazy/greedy preference), specialised to the constructs the
two patterns use.
-/

-- ## Drive status prober (`get_drive_status`, lines 42-66)

def CDS_NO_DISC : Int := 1
def CDS_TRAY_OPEN : Int := 2
def CDS_DRIVE_NOT_READY : Int := 3
def CDS_DISC_OK : Int := 4

/-- Outcome of `os.open` + `fcntl.ioctl(fd, CDROM_DRIVE_STATUS)`: either the
raw status integer, or an exception raised while opening/querying. -/
inductive ProbeResult where
  | ok (status : Int)
  | err
deriving DecidableEq

/-- `get_drive_status`: maps the raw ioctl status to `(disc_present, message)`;
any exception during open/query is caught and yields `(True, "Check Failed")`. -/
def get_drive_status : ProbeResult → Bool × String
  | .err => (true, "Check Failed")
  | .ok status =>
    if status = CDS_DISC_OK then (true, "Disc Present")
    else if status = CDS_TRAY_OPEN then (false, "Tray Open")
    else if status = CDS_NO_DISC then (false, "No Disc")
    else if status = CDS_DRIVE_NOT_READY then (false, "Drive Not Ready")
    else (false, "Unknown Status (" ++ toString status ++ ")")

-- ## Notifier (`send_telegram`, lines 69-90)

/-- Python truthiness of an optional environment string: `None` and `""` are
falsy, every other string is truthy. -/
def pyFalsy : Option String → Bool
  | none => true
  | some s => s = ""

structure TgConfig where
  TELEGRAM_TOKEN : Option String
  CHAT_ID : Option String

/-- The JSON payload of the two request shapes built by `send_telegram`. -/
inductive TgPayload where
  | photo (chat_id : String) (photoUrl : String) (caption : String) (parse_mode : String)
  | text (chat_id : String) (body : String) (parse_mode : String)
deriving DecidableEq

structure TgRequest where
  url : String
  payload : TgPayload
deriving DecidableEq

/-- The `try`/`except Exception` of `send_telegram`: the request was
performed either way; a transport error is logged and swallowed. -/
def swallowTransport (outcome : Except String Unit) (req : TgRequest) :
    Except String (List TgRequest) :=
  match outcome with
  | .ok _ => .ok [req]
  | .error _ => .ok [req]

/-- `send_telegram`: returns without any request when token/chat-id is unset or
empty; otherwise performs exactly one POST (photo or text shape) and swallows
any transport exception.  The result is the list of requests performed; an
uncaught exception would be `Except.error`, which never occurs. -/
def send_telegram (cfg : TgConfig) (post : TgRequest → Except String Unit)
    (message : String) (image_url : Option String) :
    Except String (List TgRequest) :=
  if pyFalsy cfg.TELEGRAM_TOKEN || pyFalsy cfg.CHAT_ID then .ok []
  else
    let token := cfg.TELEGRAM_TOKEN.getD ""
    let chat := cfg.CHAT_ID.getD ""
    let req : TgRequest :=
      match image_url with
      | some u =>
        { url := "https://api.telegram.org/bot" ++ token ++ "/sendPhoto"
          payload := .photo chat u message "Markdown" }
      | none =>
        { url := "https://api.telegram.org/bot" ++ token ++ "/sendMessage"
          payload := .text chat message "Markdown" }
    swallowTransport (post req) req

-- ## Regex engine for the two `re.search` patterns of `parse_abcde_log`

/-- Regex fragments actually occurring in the two patterns: literal
characters, a single class char, lazy `.*?` / `.+?` over a class, greedy `+`
over a class, greedy `?` over a class, and numbered capture groups. -/
inductive RE where
  | eps
  | lit (c : Char)
  | lazyStar (p : Char → Bool)
  | lazyPlus (p : Char → Bool)
  | greedyPlus (p : Char → Bool)
  | opt (p : Char → Bool)
  | group (n : Nat) (r : RE)
  | cat (a b : RE)

abbrev Caps := List (Nat × String)

/-- Concatenation of a literal character list. -/
def litsL : List Char → RE
  | [] => .eps
  | c :: cs => .cat (.lit c) (litsL cs)

@[reducible] def RE.lits (s : String) : RE := litsL s.data

/-- Suffixes reachable by a lazy star over class `p`, shortest consumption
first (the order Python's backtracking tries them in). -/
def lazyStarSuffixes (p : Char → Bool) : List Char → List (List Char)
  | [] => [[]]
  | c :: rest => (c :: rest) :: (if p c then lazyStarSuffixes p rest else [])

/-- Suffixes reachable by a greedy `+` over class `p`: from the longest run
down to a single character. -/
def greedyPlusSuffixes (p : Char → Bool) (s : List Char) : List (List Char) :=
  let m := (s.takeWhile p).length
  (List.range m).map (fun i => s.drop (m - i))

/-- Suffixes reachable by a greedy `?` over class `p`: with the character
first, then without. -/
def optSuffixes (p : Char → Bool) : List Char → List (List Char)
  | [] => [[]]
  | c :: rest => if p c then [rest, c :: rest] else [c :: rest]

def flatMapR (f : α → List β) : List α → List β
  | [] => []
  | a :: as => f a ++ flatMapR f as

/-- All ways the pattern can match a prefix of `s`, as (remaining input,
captures), listed in Python's backtracking preference order. -/
def mtchAll : RE → List Char → List (List Char × Caps)
  | .eps, s => [(s, [])]
  | .lit c, s =>
    match s with
    | [] => []
    | d :: rest => if d = c then [(rest, [])] else []
  | .lazyStar p, s => (lazyStarSuffixes p s).map (fun s' => (s', []))
  | .lazyPlus p, s =>
    match s with
    | [] => []
    | c :: rest =>
      if p c then (lazyStarSuffixes p rest).map (fun s' => (s', [])) else []
  | .greedyPlus p, s => (greedyPlusSuffixes p s).map (fun s' => (s', []))
  | .opt p, s => (optSuffixes p s).map (fun s' => (s', []))
  | .group n r, s =>
    (mtchAll r s).map
      (fun r2 => (r2.1, r2.2 ++ [(n, String.mk (s.take (s.length - r2.1.length)))]))
  | .cat a b, s =>
    flatMapR
      (fun r1 => (mtchAll b r1.1).map (fun r2 => (r2.1, r1.2 ++ r2.2)))
      (mtchAll a s)

/-- `re.search`: try the pattern at each start position left to right and
return the captures of the first (backtracking-preferred) match. -/
def reSearch (r : RE) : List Char → Option Caps
  | [] => ((mtchAll r []).head?).map Prod.snd
  | c :: rest =>
    match (mtchAll r (c :: rest)).head? with
    | some res => some res.2
    | none => reSearch r rest

/-- `match.group(n)`: the capture recorded for group `n`. -/
def getGroup (caps : Caps) (n : Nat) : String :=
  match caps.find? (fun c => c.1 = n) with
  | some c => c.2
  | none => ""

/-- Python `str.isspace` characters relevant to `str.strip()` / `\S`
(ASCII whitespace). -/
def pySpace (c : Char) : Bool :=
  c = ' ' || c = '\t' || c = '\n' || c = '\r' || c = '\x0b' || c = '\x0c'

/-- Python `str.strip()`. -/
def pyStrip (s : String) : String :=
  String.mk (((s.data.dropWhile pySpace).reverse.dropWhile pySpace).reverse)

/-- `.` of Python `re` without DOTALL: any character except newline. -/
def reDot (c : Char) : Bool := !(c = '\n')

/-- `\S`: any non-whitespace character. -/
def nonSpace (c : Char) : Bool := !(pySpace c)

/-- The pattern `#1 \(.*?\): ---- (.+?) / (.+?) ----` (line 97). -/
def metaRE : RE :=
  .cat (.lits "#1 (")
    (.cat (.lazyStar reDot)
      (.cat (.lits "): ---- ")
        (.cat (.group 1 (.lazyPlus reDot))
          (.cat (.lits " / ")
            (.cat (.group 2 (.lazyPlus reDot))
              (.lits " ----"))))))

/-- The pattern `cover URL: (https?://\S+)` (line 102). -/
def coverRE : RE :=
  .cat (.lits "cover URL: ")
    (.group 1
      (.cat (.lits "http")
        (.cat (.opt (fun c => c = 's'))
          (.cat (.lits "://")
            (.greedyPlus nonSpace)))))

structure RipInfo where
  artist : String
  album : String
  cover_url : Option String
deriving DecidableEq

/-- `parse_abcde_log`: extract artist, album and cover URL from the ripper's
stdout, with defaults when a pattern does not match. -/
def parse_abcde_log (log_output : String) : RipInfo :=
  let info0 : RipInfo :=
    { artist := "Unknown Artist", album := "Unknown Album", cover_url := none }
  let info1 :=
    match reSearch metaRE log_output.data with
    | some caps =>
      { info0 with
        artist := pyStrip (getGroup caps 1)
        album := pyStrip (getGroup caps 2) }
    | none => info0
  match reSearch coverRE log_output.data with
  | some caps => { info1 with cover_url := some (pyStrip (getGroup caps 1)) }
  | none => info1

-- ## Orchestrator (`main`, lines 109-210)

/-- `subprocess.CalledProcessError` data for the `abcde` invocation: raised by
`subprocess.run(..., check=True)` exactly when the return code is nonzero. -/
structure RipErr where
  returncode : Int
  stderr : String
  stdout : String
deriving DecidableEq

/-- External-world inputs of one run.  `albumDirs` is the list of directory
names found under `<temp>/flac/` (in filesystem iteration order) when the
ripper exits successfully; `finalExisting` the entry names already present in
`FINAL_MUSIC_DIR`; `escapeResult` the outcome of `systemd-escape` (`error` =
`CalledProcessError`/`FileNotFoundError`); `systemctlOk` whether
`systemctl start` succeeds; `time0`/`time1` the two `int(time.time())`
readings (temp-dir name, collision suffix). -/
structure Env where
  argv : List String
  probe : ProbeResult
  ripper : Except RipErr String
  albumDirs : List String
  finalExisting : List String
  uploadConfigured : Bool
  escapeResult : Except Unit String
  systemctlOk : Bool
  pid : Nat
  time0 : Nat
  time1 : Nat

/-- How the interpreter ends: `sys.exit(code)` vs. an exception escaping
`main` uncaught (the interpreter then exits with status 1). -/
inductive ExitKind where
  | exited (code : Int)
  | uncaught (msg : String)
deriving DecidableEq

/-- Process exit status for each `ExitKind` (an uncaught exception makes the
interpreter exit 1). -/
def processExitCode : ExitKind → Int
  | .exited code => code
  | .uncaught _ => 1

/-- Observable effects of one run. `tgCalls` records every `send_telegram`
invocation as (message, image_url); `moves` the `shutil.move` calls as
(source album name, destination path relative to `FINAL_MUSIC_DIR`);
`finalAfter` the entry names of `FINAL_MUSIC_DIR` afterwards;
`removedInCleanup` the album directories deleted by the final `rmtree`;
`uploadStarts` the systemd units whose start was requested. -/
structure RunResult where
  outcome : ExitKind
  tgCalls : List (String × Option String)
  ejects : Nat
  tempCreated : Bool
  tempDirName : Option String
  tempExistsAtEnd : Bool
  moves : List (String × String)
  finalAfter : List String
  removedInCleanup : List String
  uploadStarts : List String
deriving DecidableEq

/-- The orchestrator `main`, translated line by line.  The `try` body covers
the ripper call through the success notification; only
`subprocess.CalledProcessError` is caught (the `FileNotFoundError` raised when
no album directory is found is NOT), and the `finally` block (rmtree of the
temp directory if it exists, then `eject`) runs on every path out of the
`try`. `shutil.move` into an already-existing destination directory places the
source inside it (Python semantics), so the recorded destination path is
nested in that case. -/
def mainRun (env : Env) : RunResult :=
  if env.argv.length < 2 then
    { outcome := .exited 1, tgCalls := [], ejects := 0, tempCreated := false,
      tempDirName := none, tempExistsAtEnd := false, moves := [],
      finalAfter := env.finalExisting, removedInCleanup := [], uploadStarts := [] }
  else
    let device_name := env.argv.getD 1 ""
    let device_path := "/dev/" ++ device_name
    if (get_drive_status env.probe).1 then
      let temp_name := device_name ++ "-" ++ toString env.pid ++ "-" ++ toString env.time0
      let startCall : String × Option String :=
        ("💿 **CD Rip Started**\nDevice: `" ++ device_path ++ "`", none)
      match env.ripper with
      | .error e =>
        let failCall : String × Option String :=
          ("❌ **CD Rip Failed**\nDevice: `" ++ device_path ++
            "`\nError Code: `" ++ toString e.returncode ++ "`", none)
        { outcome := .exited e.returncode, tgCalls := [startCall, failCall],
          ejects := 1, tempCreated := true, tempDirName := some temp_name,
          tempExistsAtEnd := false, moves := [], finalAfter := env.finalExisting,
          removedInCleanup := [], uploadStarts := [] }
      | .ok ripStdout =>
        let meta := parse_abcde_log ripStdout
        match env.albumDirs with
        | [] =>
          { outcome := .uncaught "Could not find ripped album directory in temp folder.",
            tgCalls := [startCall], ejects := 1, tempCreated := true,
            tempDirName := some temp_name, tempExistsAtEnd := false, moves := [],
            finalAfter := env.finalExisting, removedInCleanup := [], uploadStarts := [] }
        | album0 :: restAlbums =>
          let destName :=
            if env.finalExisting.contains album0 then
              album0 ++ "-" ++ toString env.time1
            else album0
          let destPath :=
            if env.finalExisting.contains destName then destName ++ "/" ++ album0
            else destName
          let finalAfter :=
            if env.finalExisting.contains destName then env.finalExisting
            else env.finalExisting ++ [destName]
          let uploadFailCall : String × Option String :=
            ("⚠️ **Upload Trigger Failed**\nDevice: `" ++ device_path ++
              "`\nAlbum: " ++ destName, none)
          let uploadOutcome : List (String × Option String) × List String :=
            if env.uploadConfigured then
              match env.escapeResult with
              | .error _ => ([uploadFailCall], [])
              | .ok escOut =>
                let unitName := "copyparty-upload@" ++ pyStrip escOut ++ ".service"
                if env.systemctlOk then ([], [unitName])
                else ([uploadFailCall], [unitName])
            else ([], [])
          let successCall : String × Option String :=
            ("✅ **CD Rip Completed**\n🎵 **Artist:** " ++ meta.artist ++
              "\n💿 **Album:** " ++ meta.album ++
              "\n📂 Device: `" ++ device_path ++ "`", meta.cover_url)
          { outcome := .exited 0,
            tgCalls := [startCall] ++ uploadOutcome.1 ++ [successCall],
            ejects := 1, tempCreated := true, tempDirName := some temp_name,
            tempExistsAtEnd := false, moves := [(album0, destPath)],
            finalAfter := finalAfter, removedInCleanup := restAlbums,
            uploadStarts := uploadOutcome.2 }
    else
      { outcome := .exited 0, tgCalls := [], ejects := 0, tempCreated := false,
        tempDirName := none, tempExistsAtEnd := false, moves := [],
        finalAfter := env.finalExisting, removedInCleanup := [], uploadStarts := [] }

-- ## Concrete environments used by witnesses and counterexamples

/-- A concrete environment: device `sr0`, disc present, ripper succeeds with
empty stdout, one album directory, empty destination, no upload config. -/
def baseEnv : Env :=
  { argv := ["rip-audio-cd.py", "sr0"], probe := .ok 4, ripper := .ok "",
    albumDirs := ["Album"], finalExisting := [], uploadConfigured := false,
    escapeResult := .ok "", systemctlOk := true, pid := 7, time0 := 100, time1 := 101 }

/-- The environment of the missing-output run: disc present, ripper exits
zero, but `<temp>/flac/` holds no directory. -/
def envMissingOutput : Env := { baseEnv with albumDirs := [] }

/-- A double-collision environment: both the album name `Album` and the
timestamped name `Album-101` (with `time1 = 101`) already exist at the final
destination root. -/
def envCollisionTwice : Env := { baseEnv with finalExisting := ["Album", "Album-101"] }

-- ## Shared helper lemmas

theorem drive_status_false_of_ne {s : Int} (h : s ≠ 4) :
    (get_drive_status (.ok s)).1 = false := by
  simp only [get_drive_status]
  rw [if_neg (by simpa [CDS_DISC_OK] using h)]
  split
  · rfl
  · split
    · rfl
    · split <;> rfl

theorem mem_flatMapR {f : α → List β} {b : β} :
    ∀ {l : List α}, b ∈ flatMapR f l ↔ ∃ a ∈ l, b ∈ f a := by
  intro l
  induction l with
  | nil => simp [flatMapR]
  | cons x xs ih => simp [flatMapR, ih]

theorem head?_mem {l : List α} {a : α} (h : l.head? = some a) : a ∈ l := by
  cases l with
  | nil => simp at h
  | cons x xs =>
    simp only [List.head?_cons, Option.some.injEq] at h
    rw [← h]
    exact List.mem_cons_self x xs

theorem reSearch_some_mem {r : RE} :
    ∀ {l : List Char} {caps : Caps}, reSearch r l = some caps →
      ∃ (l' : List Char) (res : List Char × Caps),
        res ∈ mtchAll r l' ∧ res.2 = caps := by
  intro l
  induction l with
  | nil =>
    intro caps h
    unfold reSearch at h
    cases hh : (mtchAll r []).head? with
    | none => rw [hh] at h; simp at h
    | some res =>
      rw [hh] at h
      simp only [Option.map_some', Option.some.injEq] at h
      exact ⟨[], res, head?_mem hh, h⟩
  | cons c rest ih =>
    intro caps h
    unfold reSearch at h
    cases hh : (mtchAll r (c :: rest)).head? with
    | none => rw [hh] at h; exact ih h
    | some res =>
      rw [hh] at h
      injection h with h
      exact ⟨c :: rest, res, head?_mem hh, h⟩

theorem mem_mtchAll_cat {a b : RE} {s x : List Char} {y : Caps}
    (h : (x, y) ∈ mtchAll (.cat a b) s) :
    ∃ (s1 : List Char) (c1 c2 : Caps),
      (s1, c1) ∈ mtchAll a s ∧ (x, c2) ∈ mtchAll b s1 ∧ y = c1 ++ c2 := by
  simp only [mtchAll, mem_flatMapR, List.mem_map] at h
  obtain ⟨r1, h1, r2, h2, heq⟩ := h
  obtain ⟨s1, c1⟩ := r1
  obtain ⟨s2, c2⟩ := r2
  injection heq with hx hy
  subst hx
  subst hy
  exact ⟨s1, c1, c2, h1, h2, rfl⟩

theorem mem_mtchAll_lits :
    ∀ (cs : List Char) {s x : List Char} {y : Caps},
      (x, y) ∈ mtchAll (litsL cs) s → s = cs ++ x ∧ y = [] := by
  intro cs
  induction cs with
  | nil =>
    intro s x y h
    simp only [litsL, mtchAll, List.mem_singleton] at h
    injection h with hx hy
    exact ⟨hx.symm, hy⟩
  | cons c cs ih =>
    intro s x y h
    simp only [litsL] at h
    obtain ⟨s1, c1, c2, h1, h2, hy⟩ := mem_mtchAll_cat h
    cases s with
    | nil => simp [mtchAll] at h1
    | cons d rest =>
      simp only [mtchAll] at h1
      by_cases hd : d = c
      · rw [if_pos hd] at h1
        simp only [List.mem_singleton] at h1
        injection h1 with hs1 hc1
        subst hs1
        subst hc1
        obtain ⟨hrest, hc2⟩ := ih h2
        subst hc2
        exact ⟨by rw [hd, hrest]; rfl, by rw [hy]; rfl⟩
      · rw [if_neg hd] at h1
        simp at h1

theorem mem_mtchAll_group {n : Nat} {r : RE} {s x : List Char} {y : Caps}
    (h : (x, y) ∈ mtchAll (.group n r) s) :
    ∃ c : Caps, (x, c) ∈ mtchAll r s ∧
      y = c ++ [(n, String.mk (s.take (s.length - x.length)))] := by
  simp only [mtchAll, List.mem_map] at h
  obtain ⟨r2, h2, heq⟩ := h
  obtain ⟨s2, c2⟩ := r2
  injection heq with hx hy
  subst hx
  subst hy
  exact ⟨c2, h2, rfl⟩

theorem mem_mtchAll_opt {p : Char → Bool} {s x : List Char} {y : Caps}
    (h : (x, y) ∈ mtchAll (.opt p) s) :
    y = [] ∧ (x = s ∨ ∃ c, s = c :: x ∧ p c = true) := by
  simp only [mtchAll, List.mem_map] at h
  obtain ⟨s', h', heq⟩ := h
  injection heq with hx hy
  subst hx
  subst hy
  cases s with
  | nil =>
    simp only [optSuffixes, List.mem_singleton] at h'
    exact ⟨rfl, Or.inl h'⟩
  | cons c rest =>
    simp only [optSuffixes] at h'
    by_cases hp : p c
    · rw [if_pos hp] at h'
      simp only [List.mem_cons, List.not_mem_nil, or_false] at h'
      rcases h' with h' | h'
      · exact ⟨rfl, Or.inr ⟨c, by rw [h'], hp⟩⟩
      · exact ⟨rfl, Or.inl h'⟩
    · rw [if_neg hp] at h'
      simp only [List.mem_singleton] at h'
      exact ⟨rfl, Or.inl h'⟩

theorem mem_mtchAll_greedyPlus {p : Char → Bool} {s x : List Char} {y : Caps}
    (h : (x, y) ∈ mtchAll (.greedyPlus p) s) :
    y = [] ∧ ∃ k, 1 ≤ k ∧ k ≤ (s.takeWhile p).length ∧ x = s.drop k := by
  simp only [mtchAll, greedyPlusSuffixes, List.mem_map, List.mem_range] at h
  obtain ⟨s', ⟨i, hi, hs'⟩, heq⟩ := h
  injection heq with hx hy
  subst hx
  subst hy
  exact ⟨rfl, (s.takeWhile p).length - i, by omega, by omega, hs'.symm⟩

theorem takeWhile_sat (p : Char → Bool) :
    ∀ (s : List Char) (k : Nat), k ≤ (s.takeWhile p).length →
      ∀ c ∈ s.take k, p c = true := by
  intro s
  induction s with
  | nil =>
    intro k hk c hc
    simp at hc
  | cons d rest ih =>
    intro k hk c hc
    rw [List.takeWhile_cons] at hk
    by_cases hd : p d
    · rw [if_pos hd] at hk
      cases k with
      | zero => simp at hc
      | succ k' =>
        simp only [List.take_succ_cons, List.mem_cons] at hc
        rcases hc with hc | hc
        · rw [hc]
          exact hd
        · exact ih k' (by simpa using hk) c hc
    · rw [if_neg hd] at hk
      simp only [List.length_nil, Nat.le_zero] at hk
      subst hk
      simp at hc

theorem takeWhile_len_le (p : Char → Bool) :
    ∀ s : List Char, (s.takeWhile p).length ≤ s.length := by
  intro s
  induction s with
  | nil => simp
  | cons d rest ih =>
    rw [List.takeWhile_cons]
    by_cases hd : p d
    · rw [if_pos hd]
      simpa using ih
    · rw [if_neg hd]
      simp

theorem take_append_len (pre s4 : List Char) (k : Nat) (hk : k ≤ s4.length) :
    (pre ++ s4).take ((pre ++ s4).length - (s4.drop k).length) =
      pre ++ s4.take k := by
  rw [List.length_append, List.length_drop]
  have h : pre.length + s4.length - (s4.length - k) = pre.length + k := by omega
  rw [h, List.take_append_eq_append_take, List.take_of_length_le (by omega)]
  congr 1
  congr 1
  omega

theorem dropWhile_all_false {p : Char → Bool} :
    ∀ {l : List Char}, (∀ c ∈ l, p c = false) → l.dropWhile p = l := by
  intro l h
  cases l with
  | nil => rfl
  | cons c t =>
    rw [List.dropWhile_cons, if_neg]
    simp [h c (List.mem_cons_self c t)]

theorem pyStrip_all_nonspace (s : String)
    (h : ∀ c ∈ s.data, pySpace c = false) : pyStrip s = s := by
  unfold pyStrip
  rw [dropWhile_all_false h,
    dropWhile_all_false (fun c hc => h c (List.mem_reverse.mp hc)),
    List.reverse_reverse]

theorem capture_nonspace_aux (pre s4 : List Char) (k : Nat)
    (hpre : ∀ c ∈ pre, pySpace c = false)
    (hk2 : k ≤ (s4.takeWhile nonSpace).length) :
    ∀ c ∈ (pre ++ s4).take ((pre ++ s4).length - (s4.drop k).length),
      pySpace c = false := by
  rw [take_append_len pre s4 k (le_trans hk2 (takeWhile_len_le _ s4))]
  intro c hc
  rcases List.mem_append.mp hc with hc | hc
  · exact hpre c hc
  · have hns := takeWhile_sat nonSpace s4 k hk2 c hc
    simpa [nonSpace] using hns

/-- Any successful match of the cover-URL pattern captures exactly one group,
and every character of the captured URL is non-whitespace (it matches
`https?://\S+`), so Python's `.strip()` leaves it unchanged. -/
theorem coverRE_caps_shape {l x : List Char} {y : Caps}
    (h : (x, y) ∈ mtchAll coverRE l) :
    ∃ u : String, y = [(1, u)] ∧ ∀ c ∈ u.data, pySpace c = false := by
  obtain ⟨s1, c1, c2, h1, h2, hy⟩ := mem_mtchAll_cat h
  obtain ⟨hl, hc1⟩ := mem_mtchAll_lits "cover URL: ".data h1
  obtain ⟨c3, h3, hc2⟩ := mem_mtchAll_group h2
  obtain ⟨s2, c4, c5, h4, h5, hc3⟩ := mem_mtchAll_cat h3
  obtain ⟨hs1, hc4⟩ := mem_mtchAll_lits "http".data h4
  obtain ⟨s3, c6, c7, h6, h7, hc5⟩ := mem_mtchAll_cat h5
  obtain ⟨hc6, hopt⟩ := mem_mtchAll_opt h6
  obtain ⟨s5, c8, c9, h8, h9, hc7⟩ := mem_mtchAll_cat h7
  obtain ⟨hs3, hc8⟩ := mem_mtchAll_lits "://".data h8
  obtain ⟨hc9, k, hk1, hk2, hx⟩ := mem_mtchAll_greedyPlus h9
  refine ⟨String.mk (s1.take (s1.length - x.length)), ?_, ?_⟩
  · rw [hy, hc2, hc3, hc5, hc7, hc1, hc4, hc6, hc8, hc9]
    rfl
  · rcases hopt with hcase | ⟨c, hcase, hpc⟩
    · -- no 's': the capture is http://<nonspace>+
      have hs1' : s1 = "http://".data ++ s5 := by
        rw [hs1, ← hcase, hs3]
        rfl
      rw [hs1', hx]
      exact capture_nonspace_aux "http://".data s5 k (by decide) hk2
    · -- with 's': the capture is https://<nonspace>+
      have hc : c = 's' := of_decide_eq_true hpc
      have hs1' : s1 = "https://".data ++ s5 := by
        rw [hs1, hcase, hc, hs3]
        rfl
      rw [hs1', hx]
      exact capture_nonspace_aux "https://".data s5 k (by decide) hk2

-- ## Claim theorems

/-- Claim C1: on every exit path out of the rip phase (successful rip, ripper
failure, missing-output failure), the temporary session directory does not
exist after the process ends and the eject command is invoked exactly once. -/
theorem C1_cleanup_and_eject (env : Env)
    (hargv : 2 ≤ env.argv.length)
    (hdisc : (get_drive_status env.probe).1 = true) :
    (mainRun env).tempExistsAtEnd = false ∧ (mainRun env).ejects = 1 := by
  unfold mainRun
  rw [if_neg (by omega), if_pos hdisc]
  cases env.ripper with
  | error e => exact ⟨rfl, rfl⟩
  | ok ripStdout =>
    cases env.albumDirs with
    | nil => exact ⟨rfl, rfl⟩
    | cons a rest => exact ⟨rfl, rfl⟩

theorem C1_witness :
    2 ≤ baseEnv.argv.length ∧ (get_drive_status baseEnv.probe).1 = true ∧
    (mainRun baseEnv).tempExistsAtEnd = false ∧ (mainRun baseEnv).ejects = 1 :=
  ⟨by decide, by decide, C1_cleanup_and_eject baseEnv (by decide) (by decide)⟩

/-- Claim C4: the drive-status probe is total and maps status 4 to
(ready, "Disc Present"), 2 to (not ready, "Tray Open"), 1 to
(not ready, "No Disc"), 3 to (not ready, "Drive Not Ready"), any other
integer to the unknown-status outcome, and any open/query exception to
(ready, "Check Failed") — fail-open. -/
theorem C4_drive_status_map :
    get_drive_status (.ok 4) = (true, "Disc Present") ∧
    get_drive_status (.ok 2) = (false, "Tray Open") ∧
    get_drive_status (.ok 1) = (false, "No Disc") ∧
    get_drive_status (.ok 3) = (false, "Drive Not Ready") ∧
    (∀ s : Int, s ≠ 4 → s ≠ 2 → s ≠ 1 → s ≠ 3 →
      get_drive_status (.ok s) = (false, "Unknown Status (" ++ toString s ++ ")")) ∧
    get_drive_status .err = (true, "Check Failed") := by
  refine ⟨rfl, rfl, rfl, rfl, ?_, rfl⟩
  intro s h4 h2 h1 h3
  simp only [get_drive_status]
  rw [if_neg (by simpa [CDS_DISC_OK] using h4),
    if_neg (by simpa [CDS_TRAY_OPEN] using h2),
    if_neg (by simpa [CDS_NO_DISC] using h1),
    if_neg (by simpa [CDS_DRIVE_NOT_READY] using h3)]

theorem C4_witness :
    get_drive_status (.ok 7) = (false, "Unknown Status (7)") :=
  (C4_drive_status_map.2.2.2.2.1 7 (by decide) (by decide) (by decide)
    (by decide)).trans (by decide)

/-- Claim C6: on a confirmed non-ready probe outcome (status other than 4:
tray open, no disc, drive not ready, unknown), the process exits 0, sends no
notification and creates no temporary directory. -/
theorem C6_no_disc_clean_abort (env : Env) (s : Int)
    (hargv : 2 ≤ env.argv.length)
    (hprobe : env.probe = .ok s) (hs : s ≠ 4) :
    (mainRun env).outcome = .exited 0 ∧ (mainRun env).tgCalls = [] ∧
    (mainRun env).tempCreated = false := by
  unfold mainRun
  rw [if_neg (by omega), hprobe,
    if_neg (by rw [drive_status_false_of_ne hs]; exact Bool.false_ne_true)]
  exact ⟨rfl, rfl, rfl⟩

/-- Claim C5: the process exit code is 0 on success and on the clean no-disc
abort, equal to the ripper's own exit code when the ripper fails with
non-zero exit, 1 when the device argument is missing; the missing-output
condition also yields a failing exit status (1, via the uncaught
exception). -/
theorem C5_exit_codes :
    (∀ env : Env, env.argv.length < 2 → (mainRun env).outcome = .exited 1) ∧
    (∀ (env : Env) (s : Int), 2 ≤ env.argv.length → env.probe = .ok s → s ≠ 4 →
      (mainRun env).outcome = .exited 0) ∧
    (∀ (env : Env) (e : RipErr), 2 ≤ env.argv.length →
      (get_drive_status env.probe).1 = true → env.ripper = .error e →
      (mainRun env).outcome = .exited e.returncode) ∧
    (∀ (env : Env) (ripOut : String) (a : String) (rest : List String),
      2 ≤ env.argv.length → (get_drive_status env.probe).1 = true →
      env.ripper = .ok ripOut → env.albumDirs = a :: rest →
      (mainRun env).outcome = .exited 0) ∧
    (∀ (env : Env) (ripOut : String), 2 ≤ env.argv.length →
      (get_drive_status env.probe).1 = true → env.ripper = .ok ripOut →
      env.albumDirs = [] → processExitCode (mainRun env).outcome = 1) := by
  refine ⟨?_, ?_, ?_, ?_, ?_⟩
  · intro env h
    unfold mainRun
    rw [if_pos h]
  · intro env s hargv hprobe hs
    unfold mainRun
    rw [if_neg (by omega), hprobe,
      if_neg (by rw [drive_status_false_of_ne hs]; exact Bool.false_ne_true)]
  · intro env e hargv hdisc hrip
    unfold mainRun
    rw [if_neg (by omega), if_pos hdisc, hrip]
  · intro env ripOut a rest hargv hdisc hrip halb
    unfold mainRun
    rw [if_neg (by omega), if_pos hdisc, hrip, halb]
  · intro env ripOut hargv hdisc hrip halb
    unfold mainRun
    rw [if_neg (by omega), if_pos hdisc, hrip, halb]
    rfl

theorem C5_witness :
    (mainRun { baseEnv with ripper := .error ⟨7, "bad disc", ""⟩ }).outcome =
      .exited 7 :=
  C5_exit_codes.2.2.1 { baseEnv with ripper := .error ⟨7, "bad disc", ""⟩ }
    ⟨7, "bad disc", ""⟩ (by decide) (by decide) rfl

/-- Claim C2 counterexample: when the ripper exits zero but no album directory
exists, the only notification ever sent is the "rip started" one — no failure
notification — and the run ends in an uncaught `FileNotFoundError`, not in the
`sys.exit(returncode)` of the ripper-failure path. -/
theorem C2_counterexample :
    (mainRun envMissingOutput).tgCalls =
      [("💿 **CD Rip Started**\nDevice: `/dev/sr0`", none)] ∧
    (mainRun envMissingOutput).outcome =
      .uncaught "Could not find ripped album directory in temp folder." ∧
    (mainRun { baseEnv with ripper := .error ⟨1, "boom", ""⟩ }).tgCalls =
      [("💿 **CD Rip Started**\nDevice: `/dev/sr0`", none),
        ("❌ **CD Rip Failed**\nDevice: `/dev/sr0`\nError Code: `1`", none)] := by
  refine ⟨by decide, by decide, by decide⟩

/-- Claim C2 (amended): when the ripper exits zero but no album directory
exists under `<temp>/flac/`, a `FileNotFoundError` escapes uncaught: NO
failure notification is sent (only the start notification, unlike the
ripper-failure path), cleanup and eject still run, and the process exits
with the interpreter's unhandled-exception status 1 — which coincides with
the ripper-failure exit code only when that code is 1. -/
theorem C2_amended_missing_output (env : Env)
    (hargv : 2 ≤ env.argv.length)
    (hdisc : (get_drive_status env.probe).1 = true)
    (ripOut : String) (hrip : env.ripper = .ok ripOut)
    (halb : env.albumDirs = []) :
    (mainRun env).outcome =
      .uncaught "Could not find ripped album directory in temp folder." ∧
    processExitCode (mainRun env).outcome = 1 ∧
    (mainRun env).tgCalls =
      [("💿 **CD Rip Started**\nDevice: `/dev/" ++ env.argv.getD 1 "" ++ "`", none)] ∧
    (mainRun env).tempExistsAtEnd = false ∧
    (mainRun env).ejects = 1 := by
  unfold mainRun
  rw [if_neg (by omega), if_pos hdisc, hrip, halb]
  exact ⟨rfl, rfl, rfl, rfl, rfl⟩

theorem C2_amended_witness :
    (mainRun envMissingOutput).tgCalls =
      [("💿 **CD Rip Started**\nDevice: `/dev/sr0`", none)] ∧
    (mainRun envMissingOutput).ejects = 1 := by
  have h := C2_amended_missing_output envMissingOutput (by decide) (by decide)
    "" rfl rfl
  exact ⟨h.2.2.1.trans (by decide), h.2.2.2.2⟩

/-- Claim C3 counterexample: with both `Album` and `Album-101` already present
at the destination root (and `time1 = 101`), the new album `Album` is NOT
moved to the sibling path `Album-101`: `shutil.move` into the existing
directory `Album-101` nests it at `Album-101/Album` instead, and no new
sibling entry appears at the root. -/
theorem C3_counterexample :
    (mainRun envCollisionTwice).moves ≠ [("Album", "Album-101")] ∧
    (mainRun envCollisionTwice).moves = [("Album", "Album-101/Album")] ∧
    (mainRun envCollisionTwice).finalAfter = ["Album", "Album-101"] := by
  refine ⟨by decide, by decide, by decide⟩

/-- Claim C3 (amended): when a directory named `X` already exists at the final
destination root, relocating the freshly ripped album also named `X` never
deletes or overwrites existing content.  When the timestamped sibling name
`X-<timestamp>` is not already present, the album is moved to that sibling
path and every pre-existing entry is still there afterwards, with the new
sibling appended; when `X-<timestamp>` already exists too, `shutil.move`
instead nests the album inside it at `X-<timestamp>/X`, and the destination
root's entries are unchanged. -/
theorem C3_collision_renames (env : Env) (X : String) (rest : List String)
    (hargv : 2 ≤ env.argv.length)
    (hdisc : (get_drive_status env.probe).1 = true)
    (ripOut : String) (hrip : env.ripper = .ok ripOut)
    (halb : env.albumDirs = X :: rest)
    (hX : env.finalExisting.contains X = true) :
    (env.finalExisting.contains (X ++ "-" ++ toString env.time1) = false →
      (mainRun env).moves = [(X, X ++ "-" ++ toString env.time1)] ∧
      (mainRun env).finalAfter =
        env.finalExisting ++ [X ++ "-" ++ toString env.time1]) ∧
    (env.finalExisting.contains (X ++ "-" ++ toString env.time1) = true →
      (mainRun env).moves = [(X, (X ++ "-" ++ toString env.time1) ++ "/" ++ X)] ∧
      (mainRun env).finalAfter = env.finalExisting) := by
  unfold mainRun
  rw [if_neg (by omega), if_pos hdisc, hrip, halb]
  constructor
  · intro hfresh
    simp only [hX, if_true, hfresh]
    exact ⟨by simp, by simp⟩
  · intro hstale
    simp only [hX, if_true, hstale]
    exact ⟨by simp, by simp⟩

theorem C3_witness :
    ((mainRun { baseEnv with finalExisting := ["Album", "Other"] }).moves =
        [("Album", "Album-101")] ∧
      (mainRun { baseEnv with finalExisting := ["Album", "Other"] }).finalAfter =
        ["Album", "Other", "Album-101"]) ∧
    ((mainRun envCollisionTwice).moves = [("Album", "Album-101/Album")] ∧
      (mainRun envCollisionTwice).finalAfter = ["Album", "Album-101"]) := by
  have h1 := C3_collision_renames { baseEnv with finalExisting := ["Album", "Other"] }
    "Album" [] (by decide) (by decide) "" rfl rfl (by decide)
  have h2 := C3_collision_renames envCollisionTwice
    "Album" [] (by decide) (by decide) "" rfl rfl (by decide)
  refine ⟨?_, ?_⟩
  · have h := h1.1 (by decide)
    exact ⟨h.1.trans (by decide), h.2.trans (by decide)⟩
  · have h := h2.2 (by decide)
    exact ⟨h.1.trans (by decide), h.2.trans (by decide)⟩

/-- Claim C10: when more than one directory exists under `<temp>/flac/` after
a successful rip, exactly the first one in filesystem iteration order is
relocated; all the others are deleted with the temporary directory during
cleanup and are never relocated. -/
theorem C10_only_first_album_moved (env : Env)
    (hargv : 2 ≤ env.argv.length)
    (hdisc : (get_drive_status env.probe).1 = true)
    (ripOut : String) (hrip : env.ripper = .ok ripOut)
    (a b : String) (rest : List String)
    (halb : env.albumDirs = a :: b :: rest) :
    (mainRun env).moves.map Prod.fst = [a] ∧
    (mainRun env).removedInCleanup = b :: rest ∧
    (mainRun env).tempExistsAtEnd = false := by
  unfold mainRun
  rw [if_neg (by omega), if_pos hdisc, hrip, halb]
  exact ⟨rfl, rfl, rfl⟩

theorem C10_witness :
    (mainRun { baseEnv with albumDirs := ["A", "B", "C"] }).moves.map Prod.fst = ["A"] ∧
    (mainRun { baseEnv with albumDirs := ["A", "B", "C"] }).removedInCleanup = ["B", "C"] :=
  have h := C10_only_first_album_moved { baseEnv with albumDirs := ["A", "B", "C"] }
    (by decide) (by decide) "" rfl "A" "B" ["C"] rfl
  ⟨h.1, h.2.1⟩

/-- Claim C7: `send_telegram` never raises to its caller — for every
configuration, transport behaviour, message and optional image URL it
returns `ok`; and when the bot token or chat id is unset or empty it
performs no network request at all. -/
theorem C7_notify_never_raises
    (cfg : TgConfig) (post : TgRequest → Except String Unit)
    (message : String) (image_url : Option String) :
    (∃ reqs, send_telegram cfg post message image_url = .ok reqs) ∧
    (pyFalsy cfg.TELEGRAM_TOKEN = true ∨ pyFalsy cfg.CHAT_ID = true →
      send_telegram cfg post message image_url = .ok []) := by
  have hswallow : ∀ (x : Except String Unit) (r : TgRequest),
      swallowTransport x r = .ok [r] := by
    intro x r
    cases x <;> rfl
  constructor
  · by_cases hc : (pyFalsy cfg.TELEGRAM_TOKEN || pyFalsy cfg.CHAT_ID) = true
    · exact ⟨[], by simp [send_telegram, hc]⟩
    · unfold send_telegram
      rw [if_neg hc]
      cases image_url <;> exact ⟨_, hswallow _ _⟩
  · intro h
    unfold send_telegram
    rw [if_pos (by rcases h with h | h <;> simp [h])]

theorem C7_witness :
    send_telegram ⟨none, some "chat"⟩ (fun _ => .error "network down") "msg" none =
      .ok [] :=
  (C7_notify_never_raises ⟨none, some "chat"⟩ (fun _ => .error "network down")
    "msg" none).2 (Or.inl rfl)

/-- Claim C8: whenever the metadata pattern `#1 (<source>): ---- <artist> /
<album> ----` matches somewhere in the input (first match wins, per
`re.search`), the parser returns the captured artist and album with
surrounding whitespace stripped; when it matches nowhere, the defaults
"Unknown Artist"/"Unknown Album" are returned.  The parser is a total Lean
function, hence never fails. -/
theorem C8_parse_metadata :
    (∀ (log : String) (caps : Caps), reSearch metaRE log.data = some caps →
      (parse_abcde_log log).artist = pyStrip (getGroup caps 1) ∧
      (parse_abcde_log log).album = pyStrip (getGroup caps 2)) ∧
    (∀ log : String, reSearch metaRE log.data = none →
      (parse_abcde_log log).artist = "Unknown Artist" ∧
      (parse_abcde_log log).album = "Unknown Album") := by
  constructor
  · intro log caps h
    unfold parse_abcde_log
    rw [h]
    cases hc : reSearch coverRE log.data <;> exact ⟨rfl, rfl⟩
  · intro log h
    unfold parse_abcde_log
    rw [h]
    cases hc : reSearch coverRE log.data <;> exact ⟨rfl, rfl⟩

theorem C8_witness :
    (parse_abcde_log "#1 (CD): ---- Pink Floyd / The Wall ----").artist =
      "Pink Floyd" ∧
    (parse_abcde_log "no metadata here").album = "Unknown Album" :=
  ⟨((C8_parse_metadata.1 "#1 (CD): ---- Pink Floyd / The Wall ----"
      [(1, "Pink Floyd"), (2, "The Wall")] (by decide)).1).trans (by decide),
    (C8_parse_metadata.2 "no metadata here" (by decide)).2⟩

/-- Claim C9: the cover URL returned by the parser is exactly the first
match of `cover URL: (https?://\S+)` in the input — the captured URL itself,
unchanged (its characters are all non-whitespace so the `.strip()` is the
identity) — and `none` when the pattern matches nowhere; the extraction
depends only on this pattern, independently of the artist/album
extraction. -/
theorem C9_cover_extraction (log : String) :
    (parse_abcde_log log).cover_url =
      (reSearch coverRE log.data).map (fun caps => getGroup caps 1) := by
  cases hc : reSearch coverRE log.data with
  | none =>
    unfold parse_abcde_log
    rw [hc]
    cases hm : reSearch metaRE log.data <;> rfl
  | some caps =>
    obtain ⟨l', res, hmem, hres⟩ := reSearch_some_mem hc
    obtain ⟨u, hcaps, hns⟩ := coverRE_caps_shape hmem
    have hcaps' : caps = [(1, u)] := by rw [← hres]; exact hcaps
    have hg : getGroup caps 1 = u := by rw [hcaps']; rfl
    have hstrip : pyStrip (getGroup caps 1) = getGroup caps 1 := by
      rw [hg]
      exact pyStrip_all_nonspace u hns
    unfold parse_abcde_log
    rw [hc]
    cases hm : reSearch metaRE log.data <;> simp [hstrip]

theorem C6_witness :
    (mainRun { baseEnv with probe := .ok 2 }).outcome = .exited 0 ∧
    (mainRun { baseEnv with probe := .ok 2 }).tgCalls = [] ∧
    (mainRun { baseEnv with probe := .ok 2 }).tempCreated = false :=
  C6_no_disc_clean_abort { baseEnv with probe := .ok 2 } 2 (by decide) rfl (by decide)
